import Mathlib

/-!
Verification development for the LLM proxy service
(`dist/手机安卓一键脚本/888/app.py` and `monitor.py`).

The Python source is shallowly embedded below: the JSON payloads that the
code inspects are modelled as structures holding exactly the fields the code
reads, dictionaries are association lists, `collections.deque(maxlen=n)` is a
list with an evicting append, and the cooperative-concurrency behaviour of the
fan-out/arbitration path is modelled by the list of task completions in
completion ("as_completed") order, each completion carrying its finish time
where the claim needs timing.
-/

/- ===================== Data model ===================== -/

/-- The slice of an upstream chat-completion message that the proxy reads:
`result["choices"][0].get("message", {}).get("content", "")`. -/
structure UMessage where
  content : Option String
  deriving Repr, DecidableEq

/-- One entry of `result["choices"]`; the proxy reads `message` and writes
`finish_reason` when it synthesises a completion from an SSE stream. -/
structure UChoice where
  message : Option UMessage
  finish_reason : Option String
  deriving Repr, DecidableEq

/-- The normalized completion payload (`app.py` lines 318-335 and the plain
`response.json()` pass-through): only the fields the proxy ever touches. -/
structure UpstreamResult where
  id : Option String
  created : Option Nat
  model : Option String
  choices : List UChoice
  deriving Repr, DecidableEq

/-- Python `result["choices"][0].get("message", {}).get("content", "")`
(`app.py` line 491): missing pieces default to the empty string. -/
def messageContent (r : UpstreamResult) : String :=
  match r.choices.head? with
  | none => ""
  | some c =>
    match c.message with
    | none => ""
    | some m => m.content.getD ""

/-- One element of the `valid_responses` list
(`app.py` lines 493-497): `{'result': result, 'content': message_content,
'token_count': len(message_content)}`. -/
structure Candidate where
  result : UpstreamResult
  content : String
  token_count : Nat
  deriving Repr, DecidableEq

/-- Build the `valid_responses` entry for a result (`app.py` lines 493-497). -/
def toCandidate (r : UpstreamResult) : Candidate :=
  { result := r, content := messageContent r, token_count := (messageContent r).length }

/-- The proxy's validity filter (`app.py` lines 490-492): the call returned a
result (`result` truthy, i.e. not `None`), `"choices" in result and
result["choices"]`, and the message content reaches `min_response_length`. -/
def isValidResult (minLen : Nat) (result : Option UpstreamResult) : Bool :=
  match result with
  | none => false
  | some r => !r.choices.isEmpty && minLen ≤ (messageContent r).length

/-- Python `HTTPException(status_code=..., detail=...)`. -/
structure HTTPErrorValue where
  status_code : Nat
  detail : String
  deriving Repr, DecidableEq

/- ===================== Arbitration ===================== -/

/-- Processing of one completed task inside the `as_completed` loop
(`app.py` lines 489-497): a `None` result is skipped, a result passing the
validity filter is turned into its `valid_responses` entry. -/
def candidateOf (minLen : Nat) (res : Option UpstreamResult) : Option Candidate :=
  match res with
  | none => none
  | some r =>
    if isValidResult minLen (some r) then some (toCandidate r) else none

/-- The `as_completed` collection loop (`app.py` lines 487-499): completions
are consumed in arrival order and each valid one is appended to
`valid_responses`.  The input list is the sequence of task results in
completion order. -/
def collectValidResponses (minLen : Nat) (completions : List (Option UpstreamResult)) :
    List Candidate :=
  completions.filterMap (candidateOf minLen)

/-- Python's `max(xs, key=k)` on the non-empty list `x :: xs`: the running
maximum is replaced only on a strictly greater key, so the first element
attaining the maximal key wins. -/
def pyMax {α : Type} (key : α → Nat) (x : α) (xs : List α) : α :=
  xs.foldl (fun best a => if key a > key best then a else best) x

/-- The selection step of `chat_completions_proxy` / `generate_fake_stream_response`
(`app.py` lines 533-538 and 412-417): if `valid_responses` is non-empty return
`max(valid_responses, key=lambda x: x['token_count'])`, otherwise raise
`HTTPException(status_code=503, detail="所有上游API请求均失败")`. -/
def arbitrate (minLen : Nat) (completions : List (Option UpstreamResult)) :
    Except HTTPErrorValue Candidate :=
  match collectValidResponses minLen completions with
  | [] => .error { status_code := 503, detail := "所有上游API请求均失败" }
  | c :: cs => .ok (pyMax (fun x => x.token_count) c cs)

/- ===================== Concrete inputs used by witnesses ===================== -/

/-- A completion whose content has length 3. -/
def shortResult : UpstreamResult :=
  { id := some "id-a", created := some 10, model := some "m",
    choices := [{ message := some { content := some "abc" }, finish_reason := some "stop" }] }

/-- A completion whose content has length 4. -/
def longResult : UpstreamResult :=
  { id := some "id-b", created := some 11, model := some "m",
    choices := [{ message := some { content := some "defg" }, finish_reason := some "stop" }] }

/-- Arrival-ordered completions: the short valid one first, the long one second. -/
def completionsEx : List (Option UpstreamResult) :=
  [some shortResult, some longResult]

/-- Arrival-ordered completions none of which passes a minimum length of 5:
one failed call (`None`) and one success whose content has length 3. -/
def completionsExNoValid : List (Option UpstreamResult) :=
  [none, some shortResult]

/- ===================== Timed model of one arbitration run (C3) ===================== -/

/-- One dispatched upstream task together with the time at which it completes
(every task completes: `send_single_request` turns every failure into `None`
within the configured request timeout). -/
structure TimedCompletion where
  finish_time : Nat
  result : Option UpstreamResult
  deriving Repr, DecidableEq

/-- Insert a completion into a list sorted by finish time (stable). -/
def insertByTime (t : TimedCompletion) : List TimedCompletion → List TimedCompletion
  | [] => [t]
  | u :: us =>
    if u.finish_time ≤ t.finish_time then u :: insertByTime t us else t :: u :: us

/-- Python `asyncio.as_completed(tasks)` yields the tasks in completion order. -/
def sortByTime : List TimedCompletion → List TimedCompletion
  | [] => []
  | t :: ts => insertByTime t (sortByTime ts)

/-- Python `task.done()` as observed at `app.py` line 504: the `for future in
asyncio.as_completed(tasks)` loop of lines 487-499 has awaited every task, so
at that point every task is done. -/
def taskDoneAfterAwait (_t : TimedCompletion) : Bool := true

/-- Python `remaining_tasks = [task for task in tasks if not task.done()]`
(`app.py` line 504). -/
def remainingAfterAwait (tasks : List TimedCompletion) : List TimedCompletion :=
  tasks.filter fun t => !taskDoneAfterAwait t

/-- The completion time of the first valid candidate of the run, if any. -/
def firstValidTime (minLen : Nat) (tasks : List TimedCompletion) : Option Nat :=
  ((sortByTime tasks).find? fun t => isValidResult minLen t.result).map fun t => t.finish_time

/-- The whole arbitration run of `chat_completions_proxy`
(`app.py` lines 480-538; `generate_fake_stream_response` lines 359-417 is the
same logic).  Phase 1 is the `as_completed` loop, which awaits every task.
Phase 2 (`if valid_responses:` at line 502) computes `remaining_tasks`; since
phase 1 already awaited everything, `remaining_tasks` is empty, so the
15-second `asyncio.wait` and the `task.cancel()` calls of lines 506-527 never
run, and `gracePeriod` cannot influence the candidate set. -/
def arbitrateTimed (minLen gracePeriod : Nat) (tasks : List TimedCompletion) :
    Except HTTPErrorValue Candidate :=
  let phase1 := collectValidResponses minLen ((sortByTime tasks).map fun t => t.result)
  let validResponses :=
    if phase1 ≠ [] ∧ remainingAfterAwait tasks ≠ [] then
      phase1 ++ collectValidResponses minLen
        (((remainingAfterAwait tasks).filter fun t =>
            t.finish_time ≤ gracePeriod).map fun t => t.result)
    else phase1
  match validResponses with
  | [] => .error { status_code := 503, detail := "所有上游API请求均失败" }
  | c :: cs => .ok (pyMax (fun x => x.token_count) c cs)

/-- A valid candidate completing at time 1. -/
def earlyTask : TimedCompletion := { finish_time := 1, result := some shortResult }

/-- A longer valid candidate completing at time 100, long after the
15-unit grace window that starts when `earlyTask` completes. -/
def lateTask : TimedCompletion := { finish_time := 100, result := some longResult }

/-- A run in which the second completion arrives 99 time units after the
first valid one. -/
def timedTasksEx : List TimedCompletion := [earlyTask, lateTask]

/- ===================== Credential rotation (C4) ===================== -/

/-- Which of the two configured key groups a call uses. -/
inductive KeyGroup where
  | group1
  | group2
  deriving Repr, DecidableEq

/-- The two named groups of upstream credentials (`config.ini` `API_KEYS`). -/
structure ApiKeysConfig where
  group1 : List String
  group2 : List String
  deriving Repr, DecidableEq

/-- Python `s.startswith(pre)`: `pre` is a leading piece of `s`. -/
def pyStartsWith (pre s : String) : Bool :=
  pre.data.isPrefixOf s.data

/-- Python `[key for key in keys if key and not key.startswith("YOUR_") and len(key) > 10]`
(`app.py` line 256). -/
def filterValidKeys (keys : List String) : List String :=
  keys.filter fun k => k ≠ "" && !pyStartsWith "YOUR_" k && k.length > 10

/-- Python `get_current_api_keys` (`app.py` lines 241-261): reads the process-wide
`current_group_index`, picks group1 on 0 (flipping the index to 1) and group2
otherwise (flipping it back to 0), and filters the chosen group's keys.
Returns (chosen group, filtered keys, new index). -/
def getCurrentApiKeys (cfg : ApiKeysConfig) (currentGroupIndex : Nat) :
    KeyGroup × List String × Nat :=
  if currentGroupIndex = 0 then (KeyGroup.group1, filterValidKeys cfg.group1, 1)
  else (KeyGroup.group2, filterValidKeys cfg.group2, 0)

/-- The rotation index before the `i`-th sequential call, starting from
`idx` (the module initialises `current_group_index = 0`). -/
def rotatorStateAfter (cfg : ApiKeysConfig) (idx : Nat) : Nat → Nat
  | 0 => idx
  | i + 1 => (getCurrentApiKeys cfg (rotatorStateAfter cfg idx i)).2.2

/-- The key group used by the `i`-th sequential call (0-based). -/
def groupOfCall (cfg : ApiKeysConfig) (idx i : Nat) : KeyGroup :=
  (getCurrentApiKeys cfg (rotatorStateAfter cfg idx i)).1

/- ===================== Pseudo-stream emitter (C5) ===================== -/

/-- One server-sent event produced by `generate_stream`
(`app.py` lines 430-446): either a `chat.completion.chunk` carrying a piece
of the content with `finish_reason: None`, the final empty-delta chunk with
`finish_reason: "stop"`, or the terminal `data: [DONE]` sentinel. -/
inductive StreamEvent where
  | contentChunk (id : String) (created : Nat) (model : String) (delta : List Char)
  | stopChunk (id : String) (created : Nat) (model : String)
  | doneSentinel
  deriving Repr, DecidableEq

/-- Python `chunk_size = max(1, len(content) // 50)` (`app.py` line 431). -/
def pyChunkSize (content : List Char) : Nat :=
  max 1 (content.length / 50)

/-- Fuel-indexed slicing loop; the fuel is the content length, enough since
every step with a non-empty list consumes at least one character when the
chunk size is positive. -/
def chunksOfAux : Nat → Nat → List Char → List (List Char)
  | _, _, [] => []
  | 0, _, l => [l]
  | fuel + 1, k, l => l.take k :: chunksOfAux fuel k (l.drop k)

/-- Python `for i in range(0, len(content), chunk_size): chunk = content[i:i+chunk_size]`
(`app.py` lines 432-433). -/
def chunksOf (k : Nat) (l : List Char) : List (List Char) :=
  chunksOfAux l.length k l

/-- The sequence of events yielded by `generate_stream` (`app.py` lines
430-446): one chunk per content slice, then the empty-delta stop chunk, then
`data: [DONE]`. -/
def generateStream (response_id : String) (created_time : Nat) (model_name : String)
    (content : List Char) : List StreamEvent :=
  ((chunksOf (pyChunkSize content) content).map fun c =>
    StreamEvent.contentChunk response_id created_time model_name c)
  ++ [StreamEvent.stopChunk response_id created_time model_name, StreamEvent.doneSentinel]

/-- Python `stream_response_content` (`app.py` lines 424-448): extracts id, creation
time and model (with defaults taken at the current time `now`) and streams the
content. -/
def streamResponseContent (now : Nat) (result : UpstreamResult) (content : List Char) :
    List StreamEvent :=
  generateStream (result.id.getD ("chatcmpl-" ++ toString now)) (result.created.getD now)
    (result.model.getD "gemini-2.5-flash") content

/-- The `delta.content` fields of the chunk events, in emission order. -/
def chunkContents (events : List StreamEvent) : List (List Char) :=
  events.filterMap fun e =>
    match e with
    | StreamEvent.contentChunk _ _ _ d => some d
    | _ => none

/- ===================== Upstream client (C6, C8) ===================== -/

/-- The slice of one SSE delta payload that `send_single_request` reads:
`data["choices"][0].get("delta", {}).get("content")`. -/
structure SSEChoice where
  delta_content : Option String
  deriving Repr, DecidableEq

/-- One parsed `data: {json}` SSE object (`app.py` lines 299-313). -/
structure SSEPayload where
  choices : List SSEChoice
  id : Option String
  model : Option String
  created : Option Nat
  deriving Repr, DecidableEq

/-- One line of the upstream SSE body as the loop of `app.py` lines 296-316
classifies it: not a `data: ` line, an unparsable `data: ` line
(`json.JSONDecodeError` → `continue`), the `[DONE]` marker, or a payload. -/
inductive SSELine where
  | notData
  | parseFail
  | doneMark
  | payload (p : SSEPayload)
  deriving Repr, DecidableEq

/-- The accumulator of the SSE loop: `content`, `final_id`, `final_model`,
`final_created` (`app.py` lines 291-294). -/
structure SSEAcc where
  content : String
  final_id : String
  final_model : String
  final_created : Nat
  deriving Repr, DecidableEq

/-- Python `content = ""`, `final_id = ""`, `final_model = ""`,
`final_created = int(time.time())` (`app.py` lines 291-294). -/
def initialSSEAcc (now : Nat) : SSEAcc :=
  { content := "", final_id := "", final_model := "", final_created := now }

/-- One iteration of the SSE accumulation loop (`app.py` lines 296-316):
skipped lines leave the accumulator unchanged; a payload with a non-empty
`choices` list appends its delta content (default `""`) and overwrites the
metadata fields present in the payload. -/
def processSSELine (acc : SSEAcc) (line : SSELine) : SSEAcc :=
  match line with
  | .notData => acc
  | .parseFail => acc
  | .doneMark => acc
  | .payload p =>
    if !p.choices.isEmpty then
      { content := acc.content ++ ((p.choices.headD { delta_content := none }).delta_content.getD "")
        final_id := p.id.getD acc.final_id
        final_model := p.model.getD acc.final_model
        final_created := p.created.getD acc.final_created }
    else acc

/-- The completion object synthesised from a non-empty SSE accumulation
(`app.py` lines 318-335). -/
def buildStreamResult (now : Nat) (acc : SSEAcc) : UpstreamResult :=
  { id := some (if acc.final_id ≠ "" then acc.final_id else "chatcmpl-" ++ toString now),
    created := some acc.final_created,
    model := some (if acc.final_model ≠ "" then acc.final_model else "gemini-2.5-flash"),
    choices := [{ message := some { content := some acc.content }, finish_reason := some "stop" }] }

/-- The upstream HTTP reply as `send_single_request` inspects it:
status code, whether `"data:" in response_text`, the body's lines viewed as
SSE lines, and the result of `response.json()` (`none` = `ValueError`). -/
structure HttpResponseData where
  status_code : Nat
  has_data_marker : Bool
  sse_lines : List SSELine
  json_body : Option UpstreamResult
  deriving Repr, DecidableEq

/-- What the upstream call produced: an `httpx.RequestError`
(network/timeout) or an HTTP response. -/
inductive UpstreamOutcome where
  | requestFailure (msg : String)
  | response (r : HttpResponseData)
  deriving Repr, DecidableEq

/-- The forwarding allow-list (`app.py` lines 266-269). -/
def supported_params : List String :=
  ["model", "messages", "temperature", "max_tokens", "top_p", "top_k", "stop"]

/-- Python `for key, value in request_data.items(): if key in supported_params:
cleaned_data[key] = value` (`app.py` lines 265-273); the request body is an
association list in insertion order. -/
def cleanRequestData {α : Type} (request_data : List (String × α)) : List (String × α) :=
  request_data.filter fun kv => supported_params.contains kv.1

/-- Python `send_single_request` (`app.py` lines 263-348): POSTs `cleaned_data`
with the credential as bearer token, and maps the reply to a result.
Every `httpx.RequestError`, every non-2xx status (`raise_for_status` then
`except Exception`) and every unparsable body yields `return None`; a 2xx
body containing `"data:"` is accumulated as SSE and, when that produced
content, normalized into a completion object, otherwise the body's JSON
parse is returned as-is. -/
def sendSingleRequest {α : Type} (api_key : String) (request_data : List (String × α))
    (now : Nat) (outcome : UpstreamOutcome) : Option UpstreamResult :=
  let _cleaned := cleanRequestData request_data
  let _bearer := api_key
  match outcome with
  | .requestFailure _ => none
  | .response r =>
    if 200 ≤ r.status_code ∧ r.status_code < 300 then
      if r.has_data_marker then
        let acc := r.sse_lines.foldl processSSELine (initialSSEAcc now)
        if acc.content ≠ "" then some (buildStreamResult now acc) else r.json_body
      else r.json_body
    else none

/-- The failure conditions of one upstream call: network/timeout error,
non-2xx status, or a body from which no completion could be extracted. -/
def isFailureOutcome (now : Nat) : UpstreamOutcome → Bool
  | .requestFailure _ => true
  | .response r =>
    if 200 ≤ r.status_code ∧ r.status_code < 300 then
      if r.has_data_marker then
        let acc := r.sse_lines.foldl processSSELine (initialSSEAcc now)
        if acc.content ≠ "" then false else r.json_body.isNone
      else r.json_body.isNone
    else true

/- ===================== Inbound auth gate (C7) ===================== -/

/-- The server-side configuration fields the completion route reads. -/
structure ServerConfigModel where
  api_key : String
  min_response_length : Nat
  deriving Repr, DecidableEq

/-- Python `s.split(" ")` on the character list: split at every single
space, keeping empty pieces. -/
def pySplitSpaceChars : List Char → List (List Char)
  | [] => [[]]
  | c :: cs =>
    match pySplitSpaceChars cs with
    | [] => [[]]
    | w :: ws => if c = ' ' then [] :: w :: ws else (c :: w) :: ws

/-- Python `s.split(" ")`. -/
def pySplitSpace (s : String) : List String :=
  (pySplitSpaceChars s.data).map fun cs => String.mk cs

/-- The bearer-token check of `chat_completions_proxy` (`app.py` lines
460-467): the `Authorization` header is present, starts with `"Bearer "`,
and its second space-separated piece is non-empty and equals the configured
server key. -/
def validAuthHeader (header : Option String) (server_api_key : String) : Bool :=
  match header with
  | none => false
  | some h =>
    pyStartsWith "Bearer " h &&
      ((pySplitSpace h).getD 1 "" ≠ "" && (pySplitSpace h).getD 1 "" = server_api_key)

/-- Python `chat_completions_proxy` (`app.py` lines 457-538) up to the choice of a
winning candidate: the auth gate, the credential selection, and the
arbitration over the environment-supplied completions of the dispatched
calls.  The second component counts the upstream calls issued (one per
selected key) and the third carries the monitor's total count, which the
route never touches. -/
def chatCompletionsProxy (authHeader : Option String) (cfg : ServerConfigModel)
    (keysCfg : ApiKeysConfig) (currentGroupIndex : Nat)
    (completionsFor : List String → List (Option UpstreamResult))
    (monitorTotal : Nat) :
    Except HTTPErrorValue Candidate × Nat × Nat :=
  match authHeader with
  | none => (.error { status_code := 401, detail := "缺少API密钥或格式不正确" }, 0, monitorTotal)
  | some h =>
    if !pyStartsWith "Bearer " h then
      (.error { status_code := 401, detail := "缺少API密钥或格式不正确" }, 0, monitorTotal)
    else
      if (pySplitSpace h).getD 1 "" = "" ∨ (pySplitSpace h).getD 1 "" ≠ cfg.api_key then
        (.error { status_code := 401, detail := "API密钥无效" }, 0, monitorTotal)
      else
        let keys := (getCurrentApiKeys keysCfg currentGroupIndex).2.1
        if keys.isEmpty then
          (.error { status_code := 500, detail := "服务器未配置有效的API密钥" }, 0, monitorTotal)
        else
          (arbitrate cfg.min_response_length (completionsFor keys), keys.length, monitorTotal)

/-- Example server configuration (default server key `"123"`). -/
def serverCfgEx : ServerConfigModel := { api_key := "123", min_response_length := 300 }

/-- Example credential groups. -/
def cfgKeysEx : ApiKeysConfig :=
  { group1 := ["AIzaSyExampleKeyGroupOne1"], group2 := ["AIzaSyExampleKeyGroupTwo2"] }

/-- An environment in which no upstream call ever completes successfully. -/
def noCompletions : List String → List (Option UpstreamResult) := fun _ => []

/- ===================== Request monitor (C9) ===================== -/

/-- One entry of the `recent_logs` ring buffer (`monitor.py` lines 112-117);
the `details` dict is summarised by the message. -/
structure LogEntry where
  time : Nat
  level : String
  message : String
  deriving Repr, DecidableEq

/-- One entry of the `error_details` ring buffer (`monitor.py` lines 90-96). -/
structure ErrorEntry where
  time : Nat
  api_key_short : String
  status_code : Nat
  error : String
  response_time : Nat
  deriving Repr, DecidableEq

/-- The mutable state of `RequestMonitor` (`monitor.py` lines 21-53); the
unused `hourly_stats` deque is omitted, response times are measured in whole
time units. -/
structure MonitorState where
  max_log_entries : Nat
  total_requests : Nat
  successful_requests : Nat
  failed_requests : Nat
  truncated_responses : Nat
  status_codes : List (Nat × Nat)
  api_key_usage : List (String × Nat)
  api_key_failures : List (String × Nat)
  response_times : List Nat
  recent_logs : List LogEntry
  error_details : List ErrorEntry
  start_time : Nat
  deriving Repr, DecidableEq

/-- Python `collections.deque(maxlen=maxlen).append(a)`: append on the right and, if
the buffer would exceed `maxlen`, evict from the left. -/
def dequeAppend {α : Type} (maxlen : Nat) (l : List α) (a : α) : List α :=
  if maxlen < (l ++ [a]).length then (l ++ [a]).drop ((l ++ [a]).length - maxlen)
  else l ++ [a]

/-- Python `defaultdict(int)` increment. -/
def bumpCount {β : Type} [DecidableEq β] (m : List (β × Nat)) (k : β) : List (β × Nat) :=
  if m.any fun kv => kv.1 = k then
    m.map fun kv => if kv.1 = k then (kv.1, kv.2 + 1) else kv
  else m ++ [(k, 1)]

/-- Python `RequestMonitor.__init__` (`monitor.py` lines 21-53): empty counters and
buffers, `recent_logs` capped at `max_log_entries` (default 1000),
`response_times` and `error_details` capped at 100. -/
def initMonitor (max_log_entries now : Nat) : MonitorState :=
  { max_log_entries := max_log_entries, total_requests := 0, successful_requests := 0,
    failed_requests := 0, truncated_responses := 0, status_codes := [], api_key_usage := [],
    api_key_failures := [], response_times := [], recent_logs := [], error_details := [],
    start_time := now }

/-- Python `api_key[:8] + "..."` — the short, non-reversible credential id. -/
def keyShortId (k : String) : String :=
  String.mk (k.data.take 8) ++ "..."

/-- Python `RequestMonitor.add_log` (`monitor.py` lines 109-118): append one entry
to the `recent_logs` deque (capacity `max_log_entries`). -/
def addLogEntry (now : Nat) (level message : String) (s : MonitorState) : MonitorState :=
  let entry : LogEntry := { time := now, level := level, message := message }
  { s with recent_logs := dequeAppend s.max_log_entries s.recent_logs entry }

/-- Python `record_request` lines 64-70: bump `total_requests`, the status-code
histogram and the per-key usage count. -/
def recordCounters (api_key : String) (status_code : Nat) (s : MonitorState) : MonitorState :=
  { s with total_requests := s.total_requests + 1,
           status_codes := bumpCount s.status_codes status_code,
           api_key_usage := bumpCount s.api_key_usage api_key }

/-- Python `record_request` lines 73-96: the success branch bumps
`successful_requests` and, for a truncated response, `truncated_responses`
plus a warning log; the failure branch bumps `failed_requests`, the per-key
failure count, and appends to `error_details` when an error message was
given. -/
def recordOutcome (now : Nat) (api_key : String)
    (status_code response_time response_length min_length : Nat)
    (error_msg : Option String) (s : MonitorState) : MonitorState :=
  if 200 ≤ status_code ∧ status_code < 300 then
    let sa := { s with successful_requests := s.successful_requests + 1 }
    if 0 < response_length ∧ response_length < min_length then
      addLogEntry now "WARNING" "响应被截断"
        { sa with truncated_responses := sa.truncated_responses + 1 }
    else sa
  else
    let sb := { s with failed_requests := s.failed_requests + 1,
                       api_key_failures := bumpCount s.api_key_failures api_key }
    match error_msg with
    | some msg =>
      let entry : ErrorEntry :=
        { time := now, api_key_short := keyShortId api_key,
          status_code := status_code, error := msg, response_time := response_time }
      { sb with error_details := dequeAppend 100 sb.error_details entry }
    | none => sb

/-- Python `record_request` line 99: append to the `response_times` deque
(capacity 100). -/
def appendResponseTime (response_time : Nat) (s : MonitorState) : MonitorState :=
  { s with response_times := dequeAppend 100 s.response_times response_time }

/-- The full state transition of `RequestMonitor.record_request`
(`monitor.py` lines 55-107).  (Its actual execution deadlocks at the inner
`add_log` call — settled separately by the lock model below — so this is the
transition the method body specifies.) -/
def recordRequest (now : Nat) (api_key : String)
    (status_code response_time response_length min_length : Nat)
    (error_msg : Option String) (s : MonitorState) : MonitorState :=
  addLogEntry now (if 200 ≤ status_code ∧ status_code < 300 then "INFO" else "ERROR") "请求完成"
    (appendResponseTime response_time
      (recordOutcome now api_key status_code response_time response_length min_length error_msg
        (recordCounters api_key status_code s)))

/-- Python `RequestMonitor.reset_stats` (`monitor.py` lines 167-180): clear every
counter and buffer and restart the uptime clock. -/
def resetStats (now : Nat) (s : MonitorState) : MonitorState :=
  initMonitor s.max_log_entries now

/-- One serialized monitor operation: `record_request`, `add_log`,
`reset_stats`, or one of the read-only snapshot operations (`get_stats`,
`get_recent_logs`, `get_error_details`), which mutate nothing. -/
inductive MonitorOp where
  | record (now : Nat) (api_key : String)
      (status_code response_time response_length min_length : Nat)
      (error_msg : Option String)
  | log (now : Nat) (level message : String)
  | reset (now : Nat)
  | snapshot
  deriving Repr

/-- Apply one monitor operation to the state. -/
def applyOp (s : MonitorState) : MonitorOp → MonitorState
  | .record now k sc rt rl ml em => recordRequest now k sc rt rl ml em s
  | .log now lvl msg => addLogEntry now lvl msg s
  | .reset now => resetStats now s
  | .snapshot => s

/-- Run a sequence of monitor operations. -/
def runOps (s : MonitorState) (ops : List MonitorOp) : MonitorState :=
  ops.foldl applyOp s

/-- The buffer-capacity invariant of the claim: `recent_logs` never exceeds
`max_log_entries`, `error_details` and `response_times` never exceed 100. -/
def buffersWithinCapacity (s : MonitorState) : Prop :=
  s.recent_logs.length ≤ s.max_log_entries ∧
    s.error_details.length ≤ 100 ∧ s.response_times.length ≤ 100

/-- A short operation sequence exercising append, eviction and reset on a
monitor whose log capacity is 2. -/
def monitorOpsEx : List MonitorOp :=
  [.log 0 "INFO" "a", .log 1 "INFO" "b", .log 2 "INFO" "c",
   .record 3 "AIzaSyExampleKeyGroupOne1" 200 1 500 300 none,
   .record 4 "AIzaSyExampleKeyGroupOne1" 500 1 0 300 (some "upstream error"),
   .reset 5, .snapshot, .log 6 "INFO" "d"]

/- ===================== Lock model of record_request (C10) ===================== -/

/-- The lock-relevant actions executed by a monitor coroutine:
`self._lock.acquire()`, `self._lock.release()`, or any mutation of the
state (which touches no lock). -/
inductive LockStep where
  | acquire
  | release
  | mutate
  deriving Repr, DecidableEq

/-- Execution of one coroutine against the monitor's single non-reentrant
`asyncio.Lock`.  `some held` = the run finishes with the given lock state;
`none` = the run blocks forever, which happens exactly when it awaits
`acquire` while itself already holding the lock (no other task can ever
release it). -/
def runLockSteps : List LockStep → Bool → Option Bool
  | [], held => some held
  | .acquire :: rest, held => if held then none else runLockSteps rest true
  | .release :: rest, _ => runLockSteps rest false
  | .mutate :: rest, held => runLockSteps rest held

/-- The lock trace of `RequestMonitor.add_log` (`monitor.py` lines 109-118):
`async with self._lock:` around one buffer append. -/
def addLogSteps : List LockStep :=
  [.acquire, .mutate, .release]

/-- The lock trace of `RequestMonitor.record_request` (`monitor.py` lines
55-107): `async with self._lock:` around the counter updates, with
`await self.add_log(...)` — which itself acquires the same lock — executed
while the lock is held (line 79 in the truncated branch, line 103
unconditionally). -/
def recordRequestSteps (status_code response_length min_length : Nat)
    (has_error_msg : Bool) : List LockStep :=
  [.acquire, .mutate, .mutate, .mutate]
  ++ (if 200 ≤ status_code ∧ status_code < 300 then
        [.mutate] ++
          (if 0 < response_length ∧ response_length < min_length then
            [.mutate] ++ addLogSteps
          else [])
      else
        [.mutate, .mutate] ++ (if has_error_msg then [.mutate] else []))
  ++ [.mutate]
  ++ addLogSteps
  ++ [.release]

/- ===================== Lemmas about pyMax and collection ===================== -/

theorem pyMax_cons {α : Type} (key : α → Nat) (x y : α) (ys : List α) :
    pyMax key x (y :: ys) = pyMax key (if key y > key x then y else x) ys := rfl

/-- Python `max` with a key returns the first element attaining the maximal key:
the list decomposes around the returned element, everything before it has a
strictly smaller key and everything after it has a smaller-or-equal key. -/
theorem pyMax_first_max {α : Type} (key : α → Nat) (x : α) (xs : List α) :
    ∃ l₁ l₂, x :: xs = l₁ ++ pyMax key x xs :: l₂ ∧
      (∀ a ∈ l₁, key a < key (pyMax key x xs)) ∧
      (∀ a ∈ l₂, key a ≤ key (pyMax key x xs)) := by
  induction xs generalizing x with
  | nil => exact ⟨[], [], rfl, by simp, by simp⟩
  | cons y ys ih =>
    rw [pyMax_cons]
    by_cases hxy : key y > key x
    · simp only [hxy, if_pos]
      obtain ⟨l₁, l₂, hdec, hlt, hle⟩ := ih y
      have hym : key y ≤ key (pyMax key y ys) := by
        cases l₁ with
        | nil =>
          have hy : y = pyMax key y ys := by simpa using congrArg (·.head?) hdec
          exact le_of_eq (congrArg key hy)
        | cons b bs =>
          have hb : y = b := by simpa using congrArg (·.head?) hdec
          have hbm := hlt b (by simp)
          rw [← hb] at hbm
          exact le_of_lt hbm
      refine ⟨x :: l₁, l₂, ?_, ?_, hle⟩
      · simpa using congrArg (x :: ·) hdec
      · intro a ha
        rcases List.mem_cons.mp ha with rfl | ha
        · exact lt_of_lt_of_le hxy hym
        · exact hlt a ha
    · simp only [hxy, if_neg, not_false_iff]
      obtain ⟨l₁, l₂, hdec, hlt, hle⟩ := ih x
      cases l₁ with
      | nil =>
        have hxm : x = pyMax key x ys := by simpa using congrArg (·.head?) hdec
        have htl : ys = l₂ := by simpa using congrArg (·.tail) hdec
        refine ⟨[], y :: ys, by simpa using hxm, by simp, ?_⟩
        intro a ha
        rcases List.mem_cons.mp ha with rfl | ha
        · rw [← hxm]; exact le_of_not_lt hxy
        · exact hle a (htl ▸ ha)
      | cons b bs =>
        have hb : x = b := by simpa using congrArg (·.head?) hdec
        have htl : ys = bs ++ pyMax key x ys :: l₂ := by
          simpa using congrArg (·.tail) hdec
        have hbm : key x < key (pyMax key x ys) := hb ▸ hlt b (by simp)
        refine ⟨x :: y :: bs, l₂, ?_, ?_, hle⟩
        · simp only [List.cons_append]
          exact congrArg (fun t => x :: y :: t) htl
        · intro a ha
          rcases List.mem_cons.mp ha with rfl | ha
          · exact hbm
          rcases List.mem_cons.mp ha with rfl | ha
          · exact lt_of_le_of_lt (le_of_not_lt hxy) hbm
          · exact hlt a (hb ▸ List.mem_cons_of_mem _ ha)

theorem candidateOf_eq_none_iff (minLen : Nat) (res : Option UpstreamResult) :
    candidateOf minLen res = none ↔ isValidResult minLen res = false := by
  cases res with
  | none => simp [candidateOf, isValidResult]
  | some r =>
    simp only [candidateOf]
    by_cases h : isValidResult minLen (some r) <;> simp [h]

/-- The `valid_responses` list is empty iff no completion passed the filter. -/
theorem collectValidResponses_eq_nil_iff (minLen : Nat)
    (completions : List (Option UpstreamResult)) :
    collectValidResponses minLen completions = [] ↔
      ∀ res ∈ completions, isValidResult minLen res = false := by
  unfold collectValidResponses
  rw [List.filterMap_eq_nil_iff]
  constructor
  · intro h res hres
    exact (candidateOf_eq_none_iff minLen res).mp (h res hres)
  · intro h res hres
    exact (candidateOf_eq_none_iff minLen res).mpr (h res hres)

/-- Every collected candidate comes from a valid completion: its
`token_count` is the length of its content and reaches the minimum. -/
theorem collectValidResponses_mem (minLen : Nat)
    (completions : List (Option UpstreamResult)) (c : Candidate)
    (hc : c ∈ collectValidResponses minLen completions) :
    c.token_count = c.content.length ∧ minLen ≤ c.token_count := by
  unfold collectValidResponses at hc
  rw [List.mem_filterMap] at hc
  obtain ⟨res, _, hres⟩ := hc
  cases res with
  | none => simp [candidateOf] at hres
  | some r =>
    simp only [candidateOf] at hres
    by_cases hv : isValidResult minLen (some r)
    · rw [if_pos hv] at hres
      cases hres
      refine ⟨rfl, ?_⟩
      simp only [isValidResult, Bool.and_eq_true, decide_eq_true_eq] at hv
      exact hv.2
    · rw [if_neg hv] at hres
      cases hres

/- ===================== C1 / C2: arbitration ===================== -/

/-- C1: for every arrival-ordered set of candidate responses, if at least one
response is a success whose content length reaches the configured minimum,
arbitration returns the candidate whose content length is maximal among those
meeting the minimum, and among equally long candidates the earliest-arriving
one (the first in `valid_responses` order) is returned. -/
theorem arbiter_returns_longest_earliest (minLen : Nat)
    (completions : List (Option UpstreamResult))
    (h : ∃ res ∈ completions, isValidResult minLen res = true) :
    ∃ best l₁ l₂,
      arbitrate minLen completions = .ok best ∧
      collectValidResponses minLen completions = l₁ ++ best :: l₂ ∧
      best.token_count = best.content.length ∧
      minLen ≤ best.token_count ∧
      (∀ c ∈ l₁, c.token_count < best.token_count) ∧
      (∀ c ∈ l₂, c.token_count ≤ best.token_count) := by
  have hne : collectValidResponses minLen completions ≠ [] := by
    intro hnil
    obtain ⟨res, hres, hval⟩ := h
    have hfalse := (collectValidResponses_eq_nil_iff minLen completions).mp hnil res hres
    rw [hval] at hfalse
    cases hfalse
  cases hcol : collectValidResponses minLen completions with
  | nil => exact absurd hcol hne
  | cons c cs =>
    have harb : arbitrate minLen completions = .ok (pyMax (fun x => x.token_count) c cs) := by
      unfold arbitrate
      rw [hcol]
    obtain ⟨l₁, l₂, hdec, hlt, hle⟩ := pyMax_first_max (fun x => x.token_count) c cs
    have hmem : pyMax (fun x => x.token_count) c cs ∈ collectValidResponses minLen completions := by
      rw [hcol, hdec]
      simp
    obtain ⟨htc, hmin⟩ := collectValidResponses_mem minLen completions _ hmem
    exact ⟨pyMax (fun x => x.token_count) c cs, l₁, l₂, harb, hdec, htc, hmin,
      hlt, hle⟩

/-- Witness for C1: with a valid length-3 candidate arriving before a valid
length-4 candidate at minimum 3, the theorem applies at this concrete input. -/
theorem arbiter_returns_longest_earliest_witness :
    ∃ best l₁ l₂,
      arbitrate 3 completionsEx = .ok best ∧
      collectValidResponses 3 completionsEx = l₁ ++ best :: l₂ ∧
      best.token_count = best.content.length ∧
      3 ≤ best.token_count ∧
      (∀ c ∈ l₁, c.token_count < best.token_count) ∧
      (∀ c ∈ l₂, c.token_count ≤ best.token_count) :=
  arbiter_returns_longest_earliest 3 completionsEx (by decide)

/-- C2: when no completed call is a success whose content length reaches the
configured minimum, arbitration returns no completion result and fails with
the 503 "all upstream API requests failed" condition. -/
theorem arbiter_no_valid_gives_503 (minLen : Nat)
    (completions : List (Option UpstreamResult))
    (h : ∀ res ∈ completions, isValidResult minLen res = false) :
    arbitrate minLen completions =
      .error { status_code := 503, detail := "所有上游API请求均失败" } := by
  unfold arbitrate
  rw [(collectValidResponses_eq_nil_iff minLen completions).mpr h]

/-- Witness for C2: one failed call and one too-short success at minimum 5. -/
theorem arbiter_no_valid_gives_503_witness :
    arbitrate 5 completionsExNoValid =
      .error { status_code := 503, detail := "所有上游API请求均失败" } :=
  arbiter_no_valid_gives_503 5 completionsExNoValid (by decide)

/- ===================== C3: grace window ===================== -/

/-- C3: refuted on the code.  The `as_completed` loop (`app.py` lines
487-499) awaits every dispatched call before the grace-window block runs,
so `remaining_tasks` (line 504) is always empty, the 15-unit
`asyncio.wait` and the `task.cancel()` calls never execute, and no pending
call is ever cancelled.  Concretely: with the first valid candidate at
time 1 and a second completion at time 100 — far outside the claimed
15-unit window — the late completion is still considered (and wins), and
the grace-period value has no effect on the outcome at all. -/
theorem late_completion_still_considered :
    firstValidTime 3 timedTasksEx = some 1 ∧
    lateTask.finish_time > 1 + 15 ∧
    isValidResult 3 lateTask.result = true ∧
    arbitrateTimed 3 15 timedTasksEx = .ok (toCandidate longResult) ∧
    (∀ gracePeriod : Nat,
      arbitrateTimed 3 gracePeriod timedTasksEx = arbitrateTimed 3 15 timedTasksEx) :=
  ⟨by decide, by decide, by decide, rfl, fun _ => rfl⟩

/- ===================== C4: credential rotation ===================== -/

/-- C4: starting from the initial rotation index 0, sequential calls
alternate strictly between the two groups: the 0-based even calls (calls
1,3,5,… in 1-based numbering) use group1 and the odd ones use group2, and
no two consecutive calls use the same group. -/
theorem rotator_alternates (cfg : ApiKeysConfig) (i : Nat) :
    groupOfCall cfg 0 i = (if i % 2 = 0 then KeyGroup.group1 else KeyGroup.group2) ∧
    groupOfCall cfg 0 (i + 1) ≠ groupOfCall cfg 0 i := by
  have hstate : ∀ j : Nat, rotatorStateAfter cfg 0 j = j % 2 := by
    intro j
    induction j with
    | zero => rfl
    | succ n ih =>
      show (getCurrentApiKeys cfg (rotatorStateAfter cfg 0 n)).2.2 = (n + 1) % 2
      rw [ih]
      unfold getCurrentApiKeys
      rcases Nat.mod_two_eq_zero_or_one n with h | h <;> rw [h] <;> simp <;> omega
  constructor
  · unfold groupOfCall
    rw [hstate i]
    unfold getCurrentApiKeys
    rcases Nat.mod_two_eq_zero_or_one i with h | h <;> rw [h] <;> simp [h]
  · unfold groupOfCall
    rw [hstate i, hstate (i + 1)]
    unfold getCurrentApiKeys
    rcases Nat.mod_two_eq_zero_or_one i with h | h
    · have h' : (i + 1) % 2 = 1 := by omega
      rw [h, h']
      simp
    · have h' : (i + 1) % 2 = 0 := by omega
      rw [h, h']
      simp

/- ===================== C5: pseudo-stream round trip ===================== -/

theorem chunksOfAux_flatten (fuel : Nat) : ∀ (k : Nat) (l : List Char),
    l.length ≤ fuel → 1 ≤ k → (chunksOfAux fuel k l).flatten = l := by
  induction fuel with
  | zero =>
    intro k l hf _
    cases l with
    | nil => rfl
    | cons c cs => simp at hf
  | succ n ih =>
    intro k l hf hk
    cases l with
    | nil => rfl
    | cons c cs =>
      show (List.take k (c :: cs) :: chunksOfAux n k (List.drop k (c :: cs))).flatten = c :: cs
      rw [List.flatten_cons, ih k (List.drop k (c :: cs)) ?_ hk, List.take_append_drop]
      rw [List.length_drop]
      simp only [List.length_cons] at hf ⊢
      omega

theorem chunksOf_flatten (k : Nat) (l : List Char) (hk : 1 ≤ k) :
    (chunksOf k l).flatten = l :=
  chunksOfAux_flatten l.length k l le_rfl hk

/-- C5: the concatenation, in emission order, of the `delta.content` pieces
of all chunk events emitted for a winning content equals exactly that
content, and the emission ends with the empty-delta `finish_reason: "stop"`
chunk followed by the `data: [DONE]` sentinel as the final event, every
earlier event being a content chunk. -/
theorem stream_round_trip (response_id : String) (created_time : Nat) (model_name : String)
    (content : List Char) :
    (chunkContents (generateStream response_id created_time model_name content)).flatten
        = content ∧
    ∃ pre, generateStream response_id created_time model_name content =
        pre ++ [StreamEvent.stopChunk response_id created_time model_name,
                StreamEvent.doneSentinel] ∧
      ∀ e ∈ pre, ∃ d, e = StreamEvent.contentChunk response_id created_time model_name d := by
  constructor
  · have hgen : ∀ cl : List (List Char),
        chunkContents
          ((cl.map fun c => StreamEvent.contentChunk response_id created_time model_name c)
            ++ [StreamEvent.stopChunk response_id created_time model_name,
                StreamEvent.doneSentinel]) = cl := by
      intro cl
      induction cl with
      | nil => rfl
      | cons c cs ih =>
        show c :: chunkContents
          ((cs.map fun c => StreamEvent.contentChunk response_id created_time model_name c)
            ++ [StreamEvent.stopChunk response_id created_time model_name,
                StreamEvent.doneSentinel]) = c :: cs
        exact congrArg (c :: ·) ih
    have hcc : chunkContents (generateStream response_id created_time model_name content)
        = chunksOf (pyChunkSize content) content := hgen _
    rw [hcc]
    exact chunksOf_flatten _ _ (le_max_left 1 _)
  · refine ⟨(chunksOf (pyChunkSize content) content).map fun c =>
      StreamEvent.contentChunk response_id created_time model_name c, rfl, ?_⟩
    intro e he
    rw [List.mem_map] at he
    obtain ⟨d, _, rfl⟩ := he
    exact ⟨d, rfl⟩

/- ===================== C6: upstream failure mapping ===================== -/

/-- C6 counterexample: the claim says every failure is mapped to a Failure
value carrying the credential identity and a diagnostic message; on the code
every failure path executes `return None`, so the same timeout failure under
two distinct credentials yields the identical bare `None`, which determines
neither the credential nor any message. -/
theorem failure_value_lacks_credential_identity :
    sendSingleRequest "keyAlpha" ([] : List (String × Nat)) 0
        (.requestFailure "timeout") = none ∧
    sendSingleRequest "keyBeta" ([] : List (String × Nat)) 0
        (.requestFailure "timeout") = none ∧
    "keyAlpha" ≠ "keyBeta" :=
  ⟨rfl, rfl, by decide⟩

/-- C6 amended: a single upstream call never raises past its boundary —
every failure condition (network/timeout error, non-2xx upstream status,
body from which no completion could be extracted) is mapped to the absent
value `None` (the diagnostic is only logged; the value itself carries no
credential identity or message), and every non-failure outcome is a
completion result. -/
theorem send_single_request_none_iff_failure {α : Type} (api_key : String)
    (request_data : List (String × α)) (now : Nat) (outcome : UpstreamOutcome) :
    sendSingleRequest api_key request_data now outcome = none ↔
      isFailureOutcome now outcome = true := by
  cases outcome with
  | requestFailure msg => simp [sendSingleRequest, isFailureOutcome]
  | response r =>
    simp only [sendSingleRequest, isFailureOutcome]
    split_ifs <;> simp [Option.isNone_iff_eq_none]

/- ===================== C7: auth gate ===================== -/

/-- C7: for every inbound request whose bearer token is missing, malformed
or different from the configured server key, the route answers with a 401
unauthorized condition, issues zero upstream calls, and leaves the
monitor's total count unchanged. -/
theorem invalid_auth_rejected (authHeader : Option String) (cfg : ServerConfigModel)
    (keysCfg : ApiKeysConfig) (currentGroupIndex : Nat)
    (completionsFor : List String → List (Option UpstreamResult)) (monitorTotal : Nat)
    (h : validAuthHeader authHeader cfg.api_key = false) :
    ∃ detail, chatCompletionsProxy authHeader cfg keysCfg currentGroupIndex
        completionsFor monitorTotal =
      (.error { status_code := 401, detail := detail }, 0, monitorTotal) := by
  cases authHeader with
  | none => exact ⟨"缺少API密钥或格式不正确", rfl⟩
  | some hd =>
    simp only [validAuthHeader] at h
    cases h1 : pyStartsWith "Bearer " hd with
    | false =>
      refine ⟨"缺少API密钥或格式不正确", ?_⟩
      simp [chatCompletionsProxy, h1]
    | true =>
      rw [h1, Bool.true_and] at h
      have himp : ¬((pySplitSpace hd).getD 1 "" = "") →
          ¬((pySplitSpace hd).getD 1 "" = cfg.api_key) := by
        simpa [Bool.and_eq_false_iff, decide_eq_false_iff_not, not_not] using h
      have hcond : (pySplitSpace hd).getD 1 "" = "" ∨
          ¬((pySplitSpace hd).getD 1 "" = cfg.api_key) := by
        by_cases hp : (pySplitSpace hd).getD 1 "" = ""
        · exact Or.inl hp
        · exact Or.inr (himp hp)
      refine ⟨"API密钥无效", ?_⟩
      simp only [chatCompletionsProxy, h1, Bool.not_true, Bool.false_eq_true, if_false]
      rw [if_pos hcond]

/-- Witness for C7: a present but wrong bearer token against the default
server key `"123"`, with the monitor total at 7. -/
theorem invalid_auth_rejected_witness :
    ∃ detail, chatCompletionsProxy (some "Bearer wrong") serverCfgEx cfgKeysEx 0
        noCompletions 7 =
      (.error { status_code := 401, detail := detail }, 0, 7) :=
  invalid_auth_rejected (some "Bearer wrong") serverCfgEx cfgKeysEx 0 noCompletions 7
    (by decide)

/- ===================== C8: allow-list forwarding ===================== -/

/-- C8: the body forwarded upstream contains exactly the request fields
whose names are in the fixed allow-list, each with its value unchanged, in
the original order; every other field is dropped. -/
theorem clean_request_data_allow_list {α : Type} (request_data : List (String × α))
    (k : String) (v : α) :
    ((k, v) ∈ cleanRequestData request_data ↔
      (k, v) ∈ request_data ∧ k ∈ supported_params) ∧
    (cleanRequestData request_data).Sublist request_data := by
  constructor
  · unfold cleanRequestData
    rw [List.mem_filter]
    simp
  · exact List.filter_sublist _

/- ===================== C9: monitor buffer capacities ===================== -/

theorem dequeAppend_length_le {α : Type} (cap : Nat) (l : List α) (a : α)
    (h : l.length ≤ cap) : (dequeAppend cap l a).length ≤ cap := by
  unfold dequeAppend
  split_ifs with hc
  · simp only [List.length_drop, List.length_append, List.length_cons, List.length_nil] at hc ⊢
    omega
  · simp only [List.length_append, List.length_cons, List.length_nil] at hc ⊢
    omega

theorem buffersWithinCapacity_addLogEntry (now : Nat) (lvl msg : String) (s : MonitorState)
    (h : buffersWithinCapacity s) : buffersWithinCapacity (addLogEntry now lvl msg s) :=
  ⟨dequeAppend_length_le _ _ _ h.1, h.2.1, h.2.2⟩

theorem buffersWithinCapacity_recordOutcome (now : Nat) (api_key : String)
    (status_code response_time response_length min_length : Nat)
    (error_msg : Option String) (s : MonitorState) (h : buffersWithinCapacity s) :
    buffersWithinCapacity
      (recordOutcome now api_key status_code response_time response_length min_length
        error_msg s) := by
  unfold recordOutcome
  dsimp only
  split_ifs with h1 h2
  · exact buffersWithinCapacity_addLogEntry _ _ _ _ ⟨h.1, h.2.1, h.2.2⟩
  · exact ⟨h.1, h.2.1, h.2.2⟩
  · cases error_msg with
    | some msg => exact ⟨h.1, dequeAppend_length_le _ _ _ h.2.1, h.2.2⟩
    | none => exact ⟨h.1, h.2.1, h.2.2⟩

theorem buffersWithinCapacity_recordRequest (now : Nat) (api_key : String)
    (status_code response_time response_length min_length : Nat)
    (error_msg : Option String) (s : MonitorState) (h : buffersWithinCapacity s) :
    buffersWithinCapacity
      (recordRequest now api_key status_code response_time response_length min_length
        error_msg s) := by
  have h0 : buffersWithinCapacity (recordCounters api_key status_code s) :=
    ⟨h.1, h.2.1, h.2.2⟩
  have h1 := buffersWithinCapacity_recordOutcome now api_key status_code response_time
    response_length min_length error_msg _ h0
  have h2 : buffersWithinCapacity
      (appendResponseTime response_time
        (recordOutcome now api_key status_code response_time response_length min_length
          error_msg (recordCounters api_key status_code s))) :=
    ⟨h1.1, h1.2.1, dequeAppend_length_le _ _ _ h1.2.2⟩
  exact buffersWithinCapacity_addLogEntry _ _ _ _ h2

theorem buffersWithinCapacity_applyOp (s : MonitorState) (op : MonitorOp)
    (h : buffersWithinCapacity s) : buffersWithinCapacity (applyOp s op) := by
  cases op with
  | record now k sc rt rl ml em => exact buffersWithinCapacity_recordRequest now k sc rt rl ml em s h
  | log now lvl msg => exact buffersWithinCapacity_addLogEntry now lvl msg s h
  | reset now => exact ⟨Nat.zero_le _, Nat.zero_le _, Nat.zero_le _⟩
  | snapshot => exact h

theorem runOps_inv (ops : List MonitorOp) : ∀ (s : MonitorState),
    buffersWithinCapacity s → buffersWithinCapacity (runOps s ops) := by
  induction ops with
  | nil => exact fun s h => h
  | cons op rest ih => exact fun s h => ih _ (buffersWithinCapacity_applyOp s op h)

/-- C9: starting from a freshly initialised monitor, after any sequence of
monitor operations the `recent_logs` buffer holds at most `max_log_entries`
entries and the `error_details` and `response_times` buffers hold at most
100 entries each; and appending to a buffer already at capacity evicts its
oldest entry. -/
theorem monitor_buffers_bounded :
    (∀ (maxLog now : Nat) (ops : List MonitorOp),
        buffersWithinCapacity (runOps (initMonitor maxLog now) ops)) ∧
    (∀ (β : Type) (cap : Nat) (l : List β) (a : β),
        l.length = cap → 1 ≤ cap → dequeAppend cap l a = l.tail ++ [a]) := by
  constructor
  · intro maxLog now ops
    exact runOps_inv ops _ ⟨Nat.zero_le _, Nat.zero_le _, Nat.zero_le _⟩
  · intro β cap l a hlen hcap
    unfold dequeAppend
    split_ifs with hc
    · have hd : (l ++ [a]).length - cap = 1 := by
        simp only [List.length_append, List.length_cons, List.length_nil]
        omega
      rw [hd]
      cases l with
      | nil =>
        simp only [List.length_nil] at hlen
        omega
      | cons x xs => simp
    · exfalso
      simp only [List.length_append, List.length_cons, List.length_nil] at hc
      omega

/-- Witness for C9: a capacity-2 monitor run through logging, recording,
eviction and reset, and a concrete eviction of the oldest element. -/
theorem monitor_buffers_bounded_witness :
    buffersWithinCapacity (runOps (initMonitor 2 0) monitorOpsEx) ∧
    dequeAppend 3 [10, 20, 30] (40 : Nat) = [20, 30, 40] := by
  constructor
  · exact monitor_buffers_bounded.1 2 0 monitorOpsEx
  · have h := monitor_buffers_bounded.2 Nat 3 [10, 20, 30] 40 rfl (by decide)
    simpa using h

/- ===================== C10: record_request deadlock ===================== -/

/-- C10: refuted on the code — `record_request` never terminates.  It
acquires the monitor's non-reentrant `asyncio.Lock` and, while holding it,
awaits `add_log`, which acquires the same lock: for every status code,
response length, minimum length and error flag, the run blocks forever
(`none`), whereas `add_log` called on its own terminates and releases the
lock. -/
theorem record_request_never_returns :
    (∀ (status_code response_length min_length : Nat) (has_error_msg : Bool),
        runLockSteps
          (recordRequestSteps status_code response_length min_length has_error_msg)
          false = none) ∧
    runLockSteps addLogSteps false = some false := by
  constructor
  · intro sc rl ml he
    unfold recordRequestSteps
    split_ifs <;> rfl
  · rfl
